import Mathlib

/-!
Verification of the booking interval model and usage aggregator of the
family-booking-portal repository.

Calendar dates at local midnight are embedded as integer day numbers
(proleptic Gregorian day counts).  The JavaScript source computes day
differences as `Math.round((a.getTime() - b.getTime()) / 86400000)` on
midnight `Date`s, which is exactly the difference of the two day numbers,
so all date arithmetic of the source is mirrored by `Int` arithmetic here.
-/

namespace FamilyBooking

/-- Gregorian leap-year test. -/
def isLeap (y : Nat) : Bool :=
  y % 4 == 0 && (y % 100 != 0 || y % 400 == 0)

/-- Days in the proleptic Gregorian calendar strictly before year `y`
(year 1 is day 0). -/
def daysBeforeYear (y : Nat) : Nat :=
  365 * (y - 1) + (y - 1) / 4 - (y - 1) / 100 + (y - 1) / 400

/-- The twelve month lengths of a year. -/
def monthLengths (leap : Bool) : List Nat :=
  [31, if leap then 29 else 28, 31, 30, 31, 30, 31, 31, 30, 31, 30, 31]

/-- Days of year `y` strictly before month `m` (1-based). -/
def daysBeforeMonth (y m : Nat) : Nat :=
  ((monthLengths (isLeap y)).take (m - 1)).sum

/-- Number of days of month `m` (1-based) of year `y`. -/
def daysInMonth (y m : Nat) : Nat :=
  (monthLengths (isLeap y)).getD (m - 1) 0

/-- Day number of the calendar date `y-m-d` (month and day 1-based). -/
def toDays (y m d : Nat) : Int :=
  ((daysBeforeYear y + daysBeforeMonth y m + (d - 1) : Nat) : Int)

/-- `countOverlapDays` from `app/api/usage/route.ts`: clamp the booking
range `[bs, be)` to the window `[ws, we)` and count whole days of
overlap.  `start = max(bs, ws)`, `end = min(be, we)`; if the clamped
span is nonpositive the function returns 0. -/
def countOverlapDays (bs be ws we : Int) : Int :=
  let start := if bs < ws then ws else bs
  let stop := if be > we then we else be
  let ms := stop - start
  if ms ≤ 0 then 0 else ms

/-- A house row as selected by the route: `id, name`. -/
structure House where
  id : Int
  name : String
deriving DecidableEq, Repr, Inhabited

/-- Booking status column: the route only distinguishes `active`. -/
inductive BookingStatus
  | active
  | cancelled
deriving DecidableEq, Repr

/-- A booking row as selected by the route:
`house_id, start_date, end_date, status` (dates as day numbers). -/
structure BookingRow where
  house_id : Int
  start_date : Int
  end_date : Int
  status : BookingStatus
deriving DecidableEq, Repr

/-- An element of the response `rows` array (`UsageRow` in the source).
`usageRate` is modelled as a rational. -/
structure UsageRow where
  houseId : Int
  houseName : String
  month : String
  daysWithBookings : Int
  totalDays : Int
  usageRate : ℚ
deriving DecidableEq, Repr, Inhabited

/-- The Supabase query of step 2 of the route: keep bookings with
`status = active`, `start_date < monthEnd` and `end_date > monthStart`. -/
def queryBookings (bookings : List BookingRow) (ws we : Int) : List BookingRow :=
  bookings.filter fun b =>
    b.status == BookingStatus.active && decide (b.start_date < we)
      && decide (ws < b.end_date)

/-- The body of the `forEach` of step 3 of the route: add the row's
overlap days to the `usageByHouse` map (modelled as a total function
defaulting to 0, mirroring `usageByHouse.get(id) ?? 0`).  Rows whose
overlap is `≤ 0` are skipped. -/
def accumStep (ws we : Int) (m : Int → Int) (row : BookingRow) : Int → Int :=
  let days := countOverlapDays row.start_date row.end_date ws we
  if days ≤ 0 then m
  else fun k => if k = row.house_id then m row.house_id + days else m k

/-- Step 3 of the route: fold the fetched booking rows into the
`usageByHouse` map. -/
def accumUsage (rows : List BookingRow) (ws we : Int) : Int → Int :=
  rows.foldl (accumStep ws we) (fun _ => 0)

/-- Steps 2–4 of the route `GET`: filter the bookings as the database
query does, aggregate overlap days per house, then build one `UsageRow`
per house with `usageRate = daysWithBookings / totalDays` guarded by
`totalDays > 0`. -/
def computeUsage (houses : List House) (bookings : List BookingRow)
    (ws we totalDays : Int) (label : String) : List UsageRow :=
  let bookingRows := queryBookings bookings ws we
  let usageByHouse := accumUsage bookingRows ws we
  houses.map fun h =>
    let daysWithBookings := usageByHouse h.id
    let usageRate : ℚ :=
      if totalDays > 0 then (daysWithBookings : ℚ) / (totalDays : ℚ) else 0
    { houseId := h.id
      houseName := h.name
      month := label
      daysWithBookings := daysWithBookings
      totalDays := totalDays
      usageRate := usageRate }

/-- The month window returned by `getPreviousMonthWindow`. -/
structure MonthWindow where
  monthStart : Int
  monthEnd : Int
  totalDays : Int
  label : String
deriving DecidableEq, Repr

/-- Left-pad a numeral with zeros to two characters
(`String(n).padStart(2, "0")`). -/
def pad2 (n : Nat) : String :=
  if n < 10 then "0" ++ toString n else toString n

/-- `getPreviousMonthWindow` from the route.  `nowYear` and `nowMonth0`
are `now.getFullYear()` and `now.getMonth()` (0-based month).
`new Date(year, 12, 1)` normalises to January 1 of the next year, which
`toDays` receives explicitly. -/
def getPreviousMonthWindow (nowYear : Nat) (nowMonth0 : Nat) : MonthWindow :=
  let prevMonth : Int := (nowMonth0 : Int) - 1
  let year : Nat := if prevMonth < 0 then nowYear - 1 else nowYear
  let monthIndex : Nat := ((prevMonth + 12) % 12).toNat
  let monthStart := toDays year (monthIndex + 1) 1
  let monthEnd :=
    if monthIndex + 1 = 12 then toDays (year + 1) 1 1
    else toDays year (monthIndex + 2) 1
  let totalDays := monthEnd - monthStart
  let label := toString year ++ "-" ++ pad2 (monthIndex + 1)
  { monthStart := monthStart, monthEnd := monthEnd
    totalDays := totalDays, label := label }

/-- The whole successful `GET` path of the route, given the wall-clock
month at invocation and the two table snapshots: the window is always
`getPreviousMonthWindow` of the clock, and the rows are `computeUsage`
of that window. -/
def usageGET (nowYear nowMonth0 : Nat) (houses : List House)
    (bookings : List BookingRow) : String × Int × List UsageRow :=
  let w := getPreviousMonthWindow nowYear nowMonth0
  (w.label, w.totalDays,
    computeUsage houses bookings w.monthStart w.monthEnd w.totalDays w.label)

/-- Outcome of the `confirmCreateBooking` handler: either a modal error
message, or the row inserted into `bookings`. -/
inductive CreateResult
  | modalError (msg : String)
  | inserted (row : BookingRow)
deriving DecidableEq, Repr

/-- The validation and insert logic of `confirmCreateBooking`
(`app/page.tsx`): reject a non-numeric-or-small guest count, then
`nights = end - start`; reject `nights ≤ 0` and `nights > 7`; otherwise
insert the booking with `status = "active"`. -/
def confirmCreateBooking (houseId : Int) (guestCount : Int)
    (pendingStart pendingEnd : Int) : CreateResult :=
  if guestCount < 1 then
    CreateResult.modalError "Guest count must be a number >= 1."
  else
    let nights := pendingEnd - pendingStart
    if nights ≤ 0 then CreateResult.modalError "Invalid date range."
    else if nights > 7 then CreateResult.modalError "Max stay is 7 nights."
    else CreateResult.inserted
      { house_id := houseId, start_date := pendingStart
        end_date := pendingEnd, status := BookingStatus.active }

/-- Specification device: what a single booking row adds to the usage
total of house `hid` — its overlap days if it belongs to that house,
0 otherwise. -/
def overlapContribution (ws we hid : Int) (b : BookingRow) : Int :=
  if b.house_id = hid then countOverlapDays b.start_date b.end_date ws we else 0

/-- Specification device: a booking contributes to house `hid` in the
window when it belongs to the house, is active, intersects the query
range, and overlaps the window by a positive number of days. -/
def Contributes (b : BookingRow) (hid ws we : Int) : Prop :=
  b.house_id = hid ∧ b.status = BookingStatus.active ∧
    b.start_date < we ∧ ws < b.end_date ∧
    0 < countOverlapDays b.start_date b.end_date ws we

instance (b : BookingRow) (hid ws we : Int) :
    Decidable (Contributes b hid ws we) := by
  unfold Contributes; infer_instance

/-- Specification device: the bookings of the input list that are
active, intersect the window, and belong to house `hid`. -/
def relevantBookings (bookings : List BookingRow) (hid ws we : Int) :
    List BookingRow :=
  bookings.filter fun b =>
    b.house_id == hid && b.status == BookingStatus.active
      && decide (b.start_date < we) && decide (ws < b.end_date)

/-! ## Shared lemmas -/

theorem countOverlapDays_nonneg (bs be ws we : Int) :
    0 ≤ countOverlapDays bs be ws we := by
  unfold countOverlapDays
  dsimp only
  split_ifs <;> omega

theorem countOverlapDays_le_window (bs be ws we : Int) :
    countOverlapDays bs be ws we ≤ max 0 (we - ws) := by
  unfold countOverlapDays
  dsimp only
  split_ifs <;> omega

theorem accumStep_apply (ws we : Int) (m : Int → Int) (row : BookingRow)
    (k : Int) :
    accumStep ws we m row k = m k + overlapContribution ws we k row := by
  have h0 := countOverlapDays_nonneg row.start_date row.end_date ws we
  unfold accumStep overlapContribution
  by_cases h1 : countOverlapDays row.start_date row.end_date ws we ≤ 0
  · have hz : countOverlapDays row.start_date row.end_date ws we = 0 :=
      le_antisymm h1 h0
    simp [h1, hz]
  · by_cases h2 : row.house_id = k
    · subst h2
      simp [h1]
    · have h2' : ¬ (k = row.house_id) := fun h => h2 h.symm
      simp [h1, h2, h2']

theorem foldl_accumStep (ws we : Int) (rows : List BookingRow)
    (m : Int → Int) (k : Int) :
    rows.foldl (accumStep ws we) m k
      = m k + (rows.map (overlapContribution ws we k)).sum := by
  induction rows generalizing m with
  | nil => simp
  | cons r rs ih =>
      simp only [List.foldl_cons, List.map_cons, List.sum_cons]
      rw [ih, accumStep_apply]
      ring

theorem accumUsage_eq_sum (rows : List BookingRow) (ws we k : Int) :
    accumUsage rows ws we k = (rows.map (overlapContribution ws we k)).sum := by
  unfold accumUsage
  rw [foldl_accumStep]
  simp

theorem sum_overlap_relevant (bookings : List BookingRow) (k ws we : Int) :
    ((queryBookings bookings ws we).map (overlapContribution ws we k)).sum
      = ((relevantBookings bookings k ws we).map
          (fun b => countOverlapDays b.start_date b.end_date ws we)).sum := by
  induction bookings with
  | nil => rfl
  | cons b bs ih =>
      unfold queryBookings relevantBookings at *
      simp only [List.filter_cons] at *
      by_cases h1 : b.status = BookingStatus.active
      · by_cases h2 : b.start_date < we
        · by_cases h3 : ws < b.end_date
          · by_cases h4 : b.house_id = k
            · simp [h1, h2, h3, h4, overlapContribution, ih]
            · simp [h1, h2, h3, h4, overlapContribution, ih]
          · simp [h1, h2, h3, ih]
        · simp [h1, h2, ih]
      · simp [h1, ih]

theorem computeUsage_length_eq (houses : List House)
    (bookings : List BookingRow) (ws we td : Int) (label : String) :
    (computeUsage houses bookings ws we td label).length = houses.length := by
  simp [computeUsage]

theorem computeUsage_getD (houses : List House) (bookings : List BookingRow)
    (ws we td : Int) (label : String) (i : Nat) (hi : i < houses.length) :
    (computeUsage houses bookings ws we td label).getD i default
      = { houseId := (houses.getD i default).id
          houseName := (houses.getD i default).name
          month := label
          daysWithBookings :=
            accumUsage (queryBookings bookings ws we) ws we
              (houses.getD i default).id
          totalDays := td
          usageRate :=
            if td > 0 then
              ((accumUsage (queryBookings bookings ws we) ws we
                  (houses.getD i default).id : Int) : ℚ) / (td : ℚ)
            else 0 } := by
  induction houses generalizing i with
  | nil => simp at hi
  | cons h hs ih =>
      cases i with
      | zero => rfl
      | succ j =>
          have hj : j < hs.length := Nat.lt_of_succ_lt_succ hi
          simpa [computeUsage] using ih j hj

theorem accumUsage_eq_zero_of_no_contrib (bookings : List BookingRow)
    (ws we hid : Int) (h : ∀ b ∈ bookings, ¬ Contributes b hid ws we) :
    accumUsage (queryBookings bookings ws we) ws we hid = 0 := by
  rw [accumUsage_eq_sum, sum_overlap_relevant]
  apply List.sum_eq_zero
  intro x hx
  rw [List.mem_map] at hx
  obtain ⟨b, hb, rfl⟩ := hx
  rw [relevantBookings, List.mem_filter] at hb
  obtain ⟨hmem, hcond⟩ := hb
  simp only [Bool.and_eq_true, beq_iff_eq, decide_eq_true_eq] at hcond
  obtain ⟨⟨⟨hph, hpa⟩, hps⟩, hpe⟩ := hcond
  have h0 := countOverlapDays_nonneg b.start_date b.end_date ws we
  by_contra hne
  exact h b hmem ⟨hph, hpa, hps, hpe, lt_of_le_of_ne h0 (Ne.symm hne)⟩

theorem isLeap_true_iff (y : Nat) :
    isLeap y = true ↔ (y % 4 = 0 ∧ (y % 100 ≠ 0 ∨ y % 400 = 0)) := by
  unfold isLeap
  simp [Bool.and_eq_true, Bool.or_eq_true]

theorem totalDays_in_year (y m : Nat) (h1 : 1 ≤ m) (h2 : m ≤ 11) :
    toDays y (m + 1) 1 - toDays y m 1 = (daysInMonth y m : Int) := by
  interval_cases m <;>
    cases hL : isLeap y <;>
      simp [toDays, daysBeforeYear, daysBeforeMonth, daysInMonth,
        monthLengths, hL]

set_option maxHeartbeats 1000000 in
theorem totalDays_december (y : Nat) (h : 1 ≤ y) :
    toDays (y + 1) 1 1 - toDays y 12 1 = (daysInMonth y 12 : Int) := by
  have hiff := isLeap_true_iff y
  cases hL : isLeap y
  · rw [hL] at hiff
    simp only [Bool.false_eq_true, false_iff] at hiff
    have h12 : daysInMonth y 12 = 31 := by
      unfold daysInMonth monthLengths
      rw [hL]
      decide
    rw [h12]
    simp only [toDays, daysBeforeYear, daysBeforeMonth, monthLengths, hL,
      if_false, Bool.false_eq_true, List.take, List.sum_cons, List.sum_nil]
    omega
  · rw [hL] at hiff
    simp only [true_iff] at hiff
    have h12 : daysInMonth y 12 = 31 := by
      unfold daysInMonth monthLengths
      rw [hL]
      decide
    rw [h12]
    simp only [toDays, daysBeforeYear, daysBeforeMonth, monthLengths, hL,
      if_true, List.take, List.sum_cons, List.sum_nil]
    omega

/-! ## Claims -/

/-- C1: for every booking range `[start_date, end_date)` and window
`[windowStart, windowEnd)`, `countOverlapDays` returns
`max 0 (min end_date windowEnd - max start_date windowStart)` in whole
days; in particular a booking spanning 2026-01-30 to 2026-02-02
overlapped against the January 2026 window yields exactly 2 days. -/
theorem countOverlapDays_clamp_formula :
    (∀ bs be ws we : Int,
      countOverlapDays bs be ws we = max 0 (min be we - max bs ws)) ∧
    countOverlapDays (toDays 2026 1 30) (toDays 2026 2 2)
      (toDays 2026 1 1) (toDays 2026 2 1) = 2 := by
  constructor
  · intro bs be ws we
    unfold countOverlapDays
    dsimp only
    split_ifs <;> omega
  · decide

/-- C4: `countOverlapDays` is total and never negative; it returns 0
when the booking and the window do not intersect, and returns 0 for a
malformed booking with `end_date ≤ start_date`. -/
theorem countOverlapDays_safe :
    ∀ bs be ws we : Int,
      0 ≤ countOverlapDays bs be ws we ∧
      (we ≤ bs ∨ be ≤ ws → countOverlapDays bs be ws we = 0) ∧
      (be ≤ bs → countOverlapDays bs be ws we = 0) := by
  intro bs be ws we
  refine ⟨countOverlapDays_nonneg bs be ws we, ?_, ?_⟩ <;>
    · intro h
      unfold countOverlapDays
      dsimp only
      split_ifs <;> omega

/-- Witness for C4 at concrete inputs: a booking entirely before the
window, and a malformed booking with `end_date < start_date`. -/
theorem countOverlapDays_safe_witness :
    0 ≤ countOverlapDays 0 5 10 20 ∧ countOverlapDays 0 5 10 20 = 0 ∧
      countOverlapDays 9 3 0 31 = 0 :=
  ⟨(countOverlapDays_safe 0 5 10 20).1,
   (countOverlapDays_safe 0 5 10 20).2.1 (Or.inr (by decide)),
   (countOverlapDays_safe 9 3 0 31).2.2 (by decide)⟩

/-- C7: a booking (well-formed per the data model, `start_date <
end_date`) fully contained in the window contributes exactly its full
duration `end_date - start_date`. -/
theorem countOverlapDays_contained :
    ∀ bs be ws we : Int, ws ≤ bs → be ≤ we → bs < be →
      countOverlapDays bs be ws we = be - bs := by
  intro bs be ws we h1 h2 h3
  unfold countOverlapDays
  dsimp only
  split_ifs <;> omega

/-- Witness for C7: the five-night booking 2026-01-10 – 2026-01-15
inside the January 2026 window contributes its full 5 days. -/
theorem countOverlapDays_contained_witness :
    countOverlapDays (toDays 2026 1 10) (toDays 2026 1 15)
        (toDays 2026 1 1) (toDays 2026 2 1)
      = toDays 2026 1 15 - toDays 2026 1 10 :=
  countOverlapDays_contained (toDays 2026 1 10) (toDays 2026 1 15)
    (toDays 2026 1 1) (toDays 2026 2 1) (by decide) (by decide) (by decide)

/-- C2: the aggregator emits exactly one `UsageRow` per input house, in
source order (record `i` describes house `i`); a house with no
contributing bookings gets `daysWithBookings = 0`; every record's
`usageRate` is `daysWithBookings / totalDays` when `totalDays > 0` and
0 when `totalDays = 0` — the division is guarded. -/
theorem computeUsage_per_house_records :
    ∀ (houses : List House) (bookings : List BookingRow) (ws we td : Int)
      (label : String),
      (computeUsage houses bookings ws we td label).length = houses.length ∧
      ∀ i, i < houses.length →
        ((computeUsage houses bookings ws we td label).getD i default).houseId
            = (houses.getD i default).id ∧
        ((computeUsage houses bookings ws we td label).getD i default).houseName
            = (houses.getD i default).name ∧
        ((computeUsage houses bookings ws we td label).getD i default).totalDays
            = td ∧
        (0 < td →
          ((computeUsage houses bookings ws we td label).getD i default).usageRate
            = (((computeUsage houses bookings ws we td label).getD i
                  default).daysWithBookings : ℚ) / (td : ℚ)) ∧
        (td = 0 →
          ((computeUsage houses bookings ws we td label).getD i
              default).usageRate = 0) ∧
        ((∀ b ∈ bookings, ¬ Contributes b (houses.getD i default).id ws we) →
          ((computeUsage houses bookings ws we td label).getD i
              default).daysWithBookings = 0 ∧
          ((computeUsage houses bookings ws we td label).getD i
              default).usageRate = 0) := by
  intro houses bookings ws we td label
  refine ⟨computeUsage_length_eq houses bookings ws we td label, ?_⟩
  intro i hi
  rw [computeUsage_getD houses bookings ws we td label i hi]
  refine ⟨rfl, rfl, rfl, ?_, ?_, ?_⟩
  · intro htd
    simp [htd]
  · intro htd
    simp [htd]
  · intro hnone
    have hz := accumUsage_eq_zero_of_no_contrib bookings ws we
      (houses.getD i default).id hnone
    refine ⟨hz, ?_⟩
    rw [hz]
    split_ifs <;> simp

/-- Witness for C2: a single house with no bookings at all, in a
31-day window, gets the zero record. -/
theorem computeUsage_per_house_records_witness :
    ((computeUsage [⟨3, "c"⟩] [] 0 31 31 "2026-01").getD 0
        default).daysWithBookings = 0 ∧
    ((computeUsage [⟨3, "c"⟩] [] 0 31 31 "2026-01").getD 0
        default).usageRate = 0 :=
  ((computeUsage_per_house_records [⟨3, "c"⟩] [] 0 31 31 "2026-01").2 0
    (by decide)).2.2.2.2.2 (by simp)

/-- C3: each emitted record's `daysWithBookings` is the sum of the
overlap days of exactly the active bookings of that house whose range
intersects the window; and prepending a cancelled booking — whatever
its dates — leaves the whole output unchanged. -/
theorem daysWithBookings_sum_of_active :
    (∀ (houses : List House) (bookings : List BookingRow) (ws we td : Int)
        (label : String) (i : Nat), i < houses.length →
      ((computeUsage houses bookings ws we td label).getD i
          default).daysWithBookings
        = ((relevantBookings bookings (houses.getD i default).id ws we).map
            (fun b => countOverlapDays b.start_date b.end_date ws we)).sum) ∧
    (∀ (houses : List House) (b : BookingRow) (bookings : List BookingRow)
        (ws we td : Int) (label : String),
      b.status = BookingStatus.cancelled →
      computeUsage houses (b :: bookings) ws we td label
        = computeUsage houses bookings ws we td label) := by
  constructor
  · intro houses bookings ws we td label i hi
    rw [computeUsage_getD houses bookings ws we td label i hi]
    exact (accumUsage_eq_sum _ ws we _).trans
      (sum_overlap_relevant bookings _ ws we)
  · intro houses b bookings ws we td label hcan
    have hq : queryBookings (b :: bookings) ws we
        = queryBookings bookings ws we := by
      simp [queryBookings, List.filter_cons, hcan]
    unfold computeUsage
    rw [hq]

/-- Witness for C3: spec scenario for house 1 — booking A contributes 5
days, booking B 6 days (total 11), and a cancelled booking D overlapping
the window changes nothing. -/
theorem daysWithBookings_sum_of_active_witness :
    ((computeUsage [⟨1, "a"⟩]
        [⟨1, 9, 14, BookingStatus.active⟩, ⟨1, 13, 19, BookingStatus.active⟩]
        0 31 31 "2026-01").getD 0 default).daysWithBookings
      = ((relevantBookings
            [⟨1, 9, 14, BookingStatus.active⟩, ⟨1, 13, 19, BookingStatus.active⟩]
            1 0 31).map
          (fun b => countOverlapDays b.start_date b.end_date 0 31)).sum ∧
    computeUsage [⟨1, "a"⟩]
        (⟨1, 9, 14, BookingStatus.cancelled⟩ ::
          [⟨1, 13, 19, BookingStatus.active⟩]) 0 31 31 "2026-01"
      = computeUsage [⟨1, "a"⟩] [⟨1, 13, 19, BookingStatus.active⟩]
          0 31 31 "2026-01" :=
  ⟨(daysWithBookings_sum_of_active.1 [⟨1, "a"⟩]
      [⟨1, 9, 14, BookingStatus.active⟩, ⟨1, 13, 19, BookingStatus.active⟩]
      0 31 31 "2026-01" 0 (by decide)),
   (daysWithBookings_sum_of_active.2 [⟨1, "a"⟩]
      ⟨1, 9, 14, BookingStatus.cancelled⟩ [⟨1, 13, 19, BookingStatus.active⟩]
      0 31 31 "2026-01" rfl)⟩

/-- C5: when the relevant bookings of a house amount to at most one
booking and `totalDays` is the (positive) window length, the record's
`usageRate` lies in `[0, 1]`; conversely, on a concrete input where one
house has two whole-window active bookings, `daysWithBookings` exceeds
`totalDays` and the emitted `usageRate` exceeds 1 — the aggregator does
not cap it. -/
theorem usageRate_bounds_and_uncapped :
    (∀ (houses : List House) (bookings : List BookingRow) (ws we : Int)
        (label : String) (i : Nat), i < houses.length →
      0 < we - ws →
      (relevantBookings bookings (houses.getD i default).id ws we).length ≤ 1 →
      0 ≤ ((computeUsage houses bookings ws we (we - ws) label).getD i
            default).usageRate ∧
        ((computeUsage houses bookings ws we (we - ws) label).getD i
            default).usageRate ≤ 1) ∧
    (((computeUsage [⟨1, "a"⟩]
          [⟨1, 0, 31, BookingStatus.active⟩, ⟨1, 0, 31, BookingStatus.active⟩]
          0 31 31 "2026-01").getD 0 default).daysWithBookings = 62 ∧
      31 < ((computeUsage [⟨1, "a"⟩]
          [⟨1, 0, 31, BookingStatus.active⟩, ⟨1, 0, 31, BookingStatus.active⟩]
          0 31 31 "2026-01").getD 0 default).daysWithBookings ∧
      1 < ((computeUsage [⟨1, "a"⟩]
          [⟨1, 0, 31, BookingStatus.active⟩, ⟨1, 0, 31, BookingStatus.active⟩]
          0 31 31 "2026-01").getD 0 default).usageRate) := by
  constructor
  · intro houses bookings ws we label i hi hpos hlen
    rw [computeUsage_getD houses bookings ws we (we - ws) label i hi]
    have hdays : accumUsage (queryBookings bookings ws we) ws we
        (houses.getD i default).id
        = ((relevantBookings bookings (houses.getD i default).id ws we).map
            (fun b => countOverlapDays b.start_date b.end_date ws we)).sum :=
      (accumUsage_eq_sum _ ws we _).trans
        (sum_overlap_relevant bookings _ ws we)
    have hbound : 0 ≤ accumUsage (queryBookings bookings ws we) ws we
          (houses.getD i default).id ∧
        accumUsage (queryBookings bookings ws we) ws we
          (houses.getD i default).id ≤ we - ws := by
      rw [hdays]
      rcases hrel : relevantBookings bookings (houses.getD i default).id ws we
        with _ | ⟨b, _ | ⟨b2, t⟩⟩
      · simp
        omega
      · simp only [List.map_cons, List.map_nil, List.sum_cons, List.sum_nil,
          add_zero]
        have h1 := countOverlapDays_nonneg b.start_date b.end_date ws we
        have h2 := countOverlapDays_le_window b.start_date b.end_date ws we
        constructor
        · exact h1
        · omega
      · rw [hrel] at hlen
        simp at hlen
    dsimp only
    rw [if_pos hpos]
    constructor
    · apply div_nonneg
      · exact_mod_cast hbound.1
      · exact_mod_cast le_of_lt hpos
    · rw [div_le_one (by exact_mod_cast hpos)]
      exact_mod_cast hbound.2
  · rw [computeUsage_getD [⟨1, "a"⟩]
      [⟨1, 0, 31, BookingStatus.active⟩, ⟨1, 0, 31, BookingStatus.active⟩]
      0 31 31 "2026-01" 0 (by decide)]
    have hacc : accumUsage (queryBookings
        [⟨1, 0, 31, BookingStatus.active⟩, ⟨1, 0, 31, BookingStatus.active⟩]
        0 31) 0 31 (([⟨1, "a"⟩] : List House).getD 0 default).id = 62 := by
      decide
    refine ⟨hacc, ?_, ?_⟩
    · rw [hacc]
      decide
    · dsimp only
      rw [if_pos (by decide : (31 : Int) > 0), hacc]
      norm_num

/-- Witness for C5's bounded part: one house, one five-day booking in a
31-day window. -/
theorem usageRate_bounds_witness :
    0 ≤ ((computeUsage [⟨1, "a"⟩] [⟨1, 0, 5, BookingStatus.active⟩]
          0 31 (31 - 0) "2026-01").getD 0 default).usageRate ∧
    ((computeUsage [⟨1, "a"⟩] [⟨1, 0, 5, BookingStatus.active⟩]
          0 31 (31 - 0) "2026-01").getD 0 default).usageRate ≤ 1 :=
  usageRate_bounds_and_uncapped.1 [⟨1, "a"⟩]
    [⟨1, 0, 5, BookingStatus.active⟩] 0 31 "2026-01" 0
    (by decide) (by decide) (by decide)

/-- C9: the output always has one record per house, and a booking whose
`house_id` matches no house in the input list changes no output record
and raises no error — its accumulated days are silently dropped at
emission. -/
theorem unknown_house_ignored :
    (∀ (houses : List House) (bookings : List BookingRow) (ws we td : Int)
        (label : String),
      (computeUsage houses bookings ws we td label).length = houses.length) ∧
    (∀ (houses : List House) (b : BookingRow) (bookings : List BookingRow)
        (ws we td : Int) (label : String),
      (∀ h ∈ houses, h.id ≠ b.house_id) →
      computeUsage houses (b :: bookings) ws we td label
        = computeUsage houses bookings ws we td label) := by
  refine ⟨fun houses bookings ws we td label =>
    computeUsage_length_eq houses bookings ws we td label, ?_⟩
  intro houses b bookings ws we td label hmiss
  have key : ∀ hid : Int, hid ≠ b.house_id →
      accumUsage (queryBookings (b :: bookings) ws we) ws we hid
        = accumUsage (queryBookings bookings ws we) ws we hid := by
    intro hid hne
    rw [accumUsage_eq_sum, accumUsage_eq_sum]
    unfold queryBookings
    rw [List.filter_cons]
    split
    · rw [List.map_cons, List.sum_cons]
      have hzero : overlapContribution ws we hid b = 0 := by
        unfold overlapContribution
        rw [if_neg]
        intro hh
        exact hne hh.symm
      rw [hzero, zero_add]
    · rfl
  unfold computeUsage
  apply List.map_congr_left
  intro h hmem
  dsimp only
  rw [key h.id (hmiss h hmem)]

/-- Witness for C9's invariance part: a booking for house 99 leaves the
records of houses 1 and 2 untouched. -/
theorem unknown_house_ignored_witness :
    computeUsage [⟨1, "a"⟩, ⟨2, "b"⟩]
        (⟨99, 0, 31, BookingStatus.active⟩ ::
          [⟨1, 9, 14, BookingStatus.active⟩]) 0 31 31 "2026-01"
      = computeUsage [⟨1, "a"⟩, ⟨2, "b"⟩]
          [⟨1, 9, 14, BookingStatus.active⟩] 0 31 31 "2026-01" :=
  unknown_house_ignored.2 [⟨1, "a"⟩, ⟨2, "b"⟩]
    ⟨99, 0, 31, BookingStatus.active⟩ [⟨1, 9, 14, BookingStatus.active⟩]
    0 31 31 "2026-01" (by decide)

/-- C10: the aggregator's output is invariant under any permutation of
the bookings list — per-house accumulation is a sum. -/
theorem computeUsage_perm_invariant :
    ∀ (houses : List House) (bookings bookings2 : List BookingRow)
      (ws we td : Int) (label : String),
      bookings.Perm bookings2 →
      computeUsage houses bookings ws we td label
        = computeUsage houses bookings2 ws we td label := by
  intro houses b1 b2 ws we td label hp
  unfold computeUsage
  apply List.map_congr_left
  intro h _
  dsimp only
  have hacc : accumUsage (queryBookings b1 ws we) ws we h.id
      = accumUsage (queryBookings b2 ws we) ws we h.id := by
    rw [accumUsage_eq_sum, accumUsage_eq_sum]
    exact List.Perm.sum_eq ((hp.filter _).map _)
  rw [hacc]

/-- Witness for C10: swapping the two bookings of the spec scenario
changes nothing. -/
theorem computeUsage_perm_invariant_witness :
    computeUsage [⟨1, "a"⟩]
        [⟨1, 9, 14, BookingStatus.active⟩, ⟨1, 13, 19, BookingStatus.active⟩]
        0 31 31 "2026-01"
      = computeUsage [⟨1, "a"⟩]
          [⟨1, 13, 19, BookingStatus.active⟩, ⟨1, 9, 14, BookingStatus.active⟩]
          0 31 31 "2026-01" :=
  computeUsage_perm_invariant [⟨1, "a"⟩]
    [⟨1, 9, 14, BookingStatus.active⟩, ⟨1, 13, 19, BookingStatus.active⟩]
    [⟨1, 13, 19, BookingStatus.active⟩, ⟨1, 9, 14, BookingStatus.active⟩]
    0 31 31 "2026-01"
    (List.Perm.swap (⟨1, 13, 19, BookingStatus.active⟩ : BookingRow)
      (⟨1, 9, 14, BookingStatus.active⟩ : BookingRow) [])

/-- C6: when the clock-supplied invocation month is M (`nowMonth0`
0-based within `nowYear`), the default window of the aggregator is
`[first day of M-1, first day of M)` with `totalDays` the number of
days of M-1; the route's `GET` always applies this default window,
while the aggregation core `computeUsage` takes the window as an
explicit input parameter. -/
theorem previous_month_default_window :
    ∀ nowYear nowMonth0 : Nat, 2 ≤ nowYear → nowMonth0 < 12 →
      (getPreviousMonthWindow nowYear nowMonth0).monthStart
          = toDays (if nowMonth0 = 0 then nowYear - 1 else nowYear)
              (if nowMonth0 = 0 then 12 else nowMonth0) 1 ∧
      (getPreviousMonthWindow nowYear nowMonth0).monthEnd
          = toDays nowYear (nowMonth0 + 1) 1 ∧
      (getPreviousMonthWindow nowYear nowMonth0).totalDays
          = (daysInMonth (if nowMonth0 = 0 then nowYear - 1 else nowYear)
              (if nowMonth0 = 0 then 12 else nowMonth0) : Int) ∧
      ∀ (houses : List House) (bookings : List BookingRow),
        usageGET nowYear nowMonth0 houses bookings
          = ((getPreviousMonthWindow nowYear nowMonth0).label,
             (getPreviousMonthWindow nowYear nowMonth0).totalDays,
             computeUsage houses bookings
               (getPreviousMonthWindow nowYear nowMonth0).monthStart
               (getPreviousMonthWindow nowYear nowMonth0).monthEnd
               (getPreviousMonthWindow nowYear nowMonth0).totalDays
               (getPreviousMonthWindow nowYear nowMonth0).label) := by
  intro nowYear nowMonth0 hy hm
  obtain ⟨z, rfl⟩ : ∃ z, nowYear = z + 2 := ⟨nowYear - 2, by omega⟩
  interval_cases nowMonth0
  · exact ⟨rfl, rfl, totalDays_december (z + 1) (by omega),
      fun houses bookings => rfl⟩
  · exact ⟨rfl, rfl, totalDays_in_year (z + 2) 1 (by norm_num) (by norm_num),
      fun houses bookings => rfl⟩
  · exact ⟨rfl, rfl, totalDays_in_year (z + 2) 2 (by norm_num) (by norm_num),
      fun houses bookings => rfl⟩
  · exact ⟨rfl, rfl, totalDays_in_year (z + 2) 3 (by norm_num) (by norm_num),
      fun houses bookings => rfl⟩
  · exact ⟨rfl, rfl, totalDays_in_year (z + 2) 4 (by norm_num) (by norm_num),
      fun houses bookings => rfl⟩
  · exact ⟨rfl, rfl, totalDays_in_year (z + 2) 5 (by norm_num) (by norm_num),
      fun houses bookings => rfl⟩
  · exact ⟨rfl, rfl, totalDays_in_year (z + 2) 6 (by norm_num) (by norm_num),
      fun houses bookings => rfl⟩
  · exact ⟨rfl, rfl, totalDays_in_year (z + 2) 7 (by norm_num) (by norm_num),
      fun houses bookings => rfl⟩
  · exact ⟨rfl, rfl, totalDays_in_year (z + 2) 8 (by norm_num) (by norm_num),
      fun houses bookings => rfl⟩
  · exact ⟨rfl, rfl, totalDays_in_year (z + 2) 9 (by norm_num) (by norm_num),
      fun houses bookings => rfl⟩
  · exact ⟨rfl, rfl, totalDays_in_year (z + 2) 10 (by norm_num) (by norm_num),
      fun houses bookings => rfl⟩
  · exact ⟨rfl, rfl, totalDays_in_year (z + 2) 11 (by norm_num) (by norm_num),
      fun houses bookings => rfl⟩

/-- Witness for C6: invoked in February 2026, the default window is
January 2026 with 31 total days. -/
theorem previous_month_default_window_witness :
    (getPreviousMonthWindow 2026 1).monthStart = toDays 2026 1 1 ∧
    (getPreviousMonthWindow 2026 1).monthEnd = toDays 2026 2 1 ∧
    (getPreviousMonthWindow 2026 1).totalDays = (daysInMonth 2026 1 : Int) :=
  ⟨(previous_month_default_window 2026 1 (by decide) (by decide)).1,
   (previous_month_default_window 2026 1 (by decide) (by decide)).2.1,
   (previous_month_default_window 2026 1 (by decide) (by decide)).2.2.1⟩

/-- C8: booking creation validates the night count `end_date -
start_date` before inserting: a non-positive duration is rejected with
"Invalid date range.", more than 7 nights is rejected with "Max stay is
7 nights.", and a booking row is inserted exactly when
`1 ≤ nights ≤ 7` (given a valid guest count). -/
theorem confirmCreateBooking_enforces_invariants :
    ∀ houseId guestCount ps pe : Int, 1 ≤ guestCount →
      (pe - ps ≤ 0 →
        confirmCreateBooking houseId guestCount ps pe
          = CreateResult.modalError "Invalid date range.") ∧
      (7 < pe - ps →
        confirmCreateBooking houseId guestCount ps pe
          = CreateResult.modalError "Max stay is 7 nights.") ∧
      ((∃ row, confirmCreateBooking houseId guestCount ps pe
          = CreateResult.inserted row) ↔ 1 ≤ pe - ps ∧ pe - ps ≤ 7) ∧
      (1 ≤ pe - ps → pe - ps ≤ 7 →
        confirmCreateBooking houseId guestCount ps pe
          = CreateResult.inserted
              { house_id := houseId, start_date := ps, end_date := pe,
                status := BookingStatus.active }) := by
  intro houseId guestCount ps pe hg
  unfold confirmCreateBooking
  rw [if_neg (by omega)]
  dsimp only
  refine ⟨?_, ?_, ?_, ?_⟩
  · intro h
    rw [if_pos h]
  · intro h
    rw [if_neg (by omega), if_pos h]
  · constructor
    · rintro ⟨row, hrow⟩
      split_ifs at hrow with h1 h2
      all_goals try simp at hrow
      all_goals omega
    · rintro ⟨h1, h2⟩
      rw [if_neg (by omega), if_neg (by omega)]
      exact ⟨_, rfl⟩
  · intro h1 h2
    rw [if_neg (by omega), if_neg (by omega)]

/-- Witness for C8: a valid three-night request is inserted, a reversed
range and a nine-night request are rejected. -/
theorem confirmCreateBooking_enforces_invariants_witness :
    confirmCreateBooking 1 2 0 3
        = CreateResult.inserted
            { house_id := 1, start_date := 0, end_date := 3,
              status := BookingStatus.active } ∧
    confirmCreateBooking 1 2 3 0
        = CreateResult.modalError "Invalid date range." ∧
    confirmCreateBooking 1 2 0 9
        = CreateResult.modalError "Max stay is 7 nights." :=
  ⟨(confirmCreateBooking_enforces_invariants 1 2 0 3 (by decide)).2.2.2
      (by decide) (by decide),
   (confirmCreateBooking_enforces_invariants 1 2 3 0 (by decide)).1
      (by decide),
   (confirmCreateBooking_enforces_invariants 1 2 0 9 (by decide)).2.1
      (by decide)⟩

end FamilyBooking
